import Mathlib

/-!
Verification of the justice-agent repository's extraction/validation and
polling logic against its natural-language specification.

Strings from the Python source are modelled as `List Char`; machine floats
used for time intervals are modelled as exact rationals (all the concrete
configuration values in the claims are exactly representable, and the claims
concern control flow and counts, not rounding).
-/

namespace JusticeAgent

/-! ## Shared helpers -/

/-- Python `int(c)` on a single digit character. -/
def digitVal (c : Char) : ℕ := c.toNat - 48

/-- Python `re.sub(r'[^\d]', '', s)`: keep only digit characters. -/
def cleanDigits (s : List Char) : List Char := s.filter Char.isDigit

/-- Python whitespace test for `str.strip` (ASCII portion). -/
def isPySpace (c : Char) : Bool :=
  c = ' ' ∨ c = '\t' ∨ c = '\n' ∨ c = '\r' ∨ c = '\x0b' ∨ c = '\x0c'

/-- Python `str.strip()`. -/
def pyStrip (s : List Char) : List Char :=
  ((s.dropWhile isPySpace).reverse.dropWhile isPySpace).reverse

/-! ## DocumentValidator.validate_cpf (src/tools/utils/document_validator.py:119-153) -/

/-- `DocumentValidator.validate_cpf`.  Removes formatting, checks length 11,
rejects the all-identical-characters pattern (`clean_cpf == clean_cpf[0]*11`),
computes the two verification digits and compares them with positions 9, 10.
The Python `try/except (ValueError, IndexError)` can never fire once the
length check passed (all characters are digits), so no fallible branch is
needed. -/
def validate_cpf (cpf : List Char) : Bool :=
  let clean := cleanDigits cpf
  if clean.length ≠ 11 then false
  else if clean = List.replicate 11 clean.headI then false
  else
    let d : ℕ → ℕ := fun i => digitVal (clean.getD i '0')
    let sum1 := ∑ i in Finset.range 9, d i * (10 - i)
    let digit1 := sum1 * 10 % 11 % 10
    let sum2 := ∑ i in Finset.range 10, d i * (11 - i)
    let digit2 := sum2 * 10 % 11 % 10
    decide (digit1 = d 9 ∧ digit2 = d 10)

/-- `DocumentValidator.validate_cnpj` weight table 1 (source line 178). -/
def cnpjWeights1 : List ℕ := [5, 4, 3, 2, 9, 8, 7, 6, 5, 4, 3, 2]

/-- `DocumentValidator.validate_cnpj` weight table 2 (source line 183). -/
def cnpjWeights2 : List ℕ := [6, 5, 4, 3, 2, 9, 8, 7, 6, 5, 4, 3, 2]

/-- `DocumentValidator.validate_cnpj` (source lines 155-191). -/
def validate_cnpj (cnpj : List Char) : Bool :=
  let clean := cleanDigits cnpj
  if clean.length ≠ 14 then false
  else if clean = List.replicate 14 clean.headI then false
  else
    let d : ℕ → ℕ := fun i => digitVal (clean.getD i '0')
    let sum1 := ∑ i in Finset.range 12, d i * cnpjWeights1.getD i 0
    let digit1 := if sum1 % 11 ≥ 2 then 11 - sum1 % 11 else 0
    let sum2 := ∑ i in Finset.range 13, d i * cnpjWeights2.getD i 0
    let digit2 := if sum2 % 11 ≥ 2 then 11 - sum2 % 11 else 0
    decide (digit1 = d 12 ∧ digit2 = d 13)

/-! ## A matcher for the source's regular expressions

All regexes in the repository are concatenations of fixed-width capturing
digit groups `(\d{n})` and optional single-character separators (`\.?`,
`-?`, `/?`, `[-.]?`), except for `(\d{7,})` and `\b\d{11,14}\b`, which get
dedicated matchers below.  The matcher implements Python's backtracking
semantics: an optional separator is consumed greedily, and dropped again if
the remainder of the pattern fails.  `re.findall` semantics: scan left to
right, take the leftmost match, continue after its end (all patterns used
here match at least two characters, so progress is guaranteed). -/

/-- One element of a fixed-shape pattern. -/
inductive PatElem where
  /-- `(\d{n})`: a capturing group of exactly `n` digits. -/
  | grp (n : ℕ)
  /-- `c?`: an optional single literal character. -/
  | opt (c : Char)
  /-- `[-.]?`: an optional hyphen-or-dot character class. -/
  | optSep
deriving Repr, DecidableEq

/-- Take exactly `n` digit characters off the front. -/
def takeDigits : ℕ → List Char → Option (List Char × List Char)
  | 0, s => some ([], s)
  | _ + 1, [] => none
  | n + 1, c :: s =>
    if c.isDigit then (takeDigits n s).map (fun g => (c :: g.1, g.2)) else none

/-- Match a pattern at the head of `s`; return the captured groups and the
remaining suffix.  Optional elements backtrack as in Python `re`. -/
def tryMatch : List PatElem → List Char → Option (List (List Char) × List Char)
  | [], s => some ([], s)
  | .grp n :: ps, s =>
    match takeDigits n s with
    | none => none
    | some (g, r) => (tryMatch ps r).map (fun gr => (g :: gr.1, gr.2))
  | .opt c :: ps, s =>
    match s with
    | [] => tryMatch ps []
    | c2 :: r =>
      if c2 = c then
        match tryMatch ps r with
        | some res => some res
        | none => tryMatch ps (c2 :: r)
      else tryMatch ps (c2 :: r)
  | .optSep :: ps, s =>
    match s with
    | [] => tryMatch ps []
    | c2 :: r =>
      if c2 = '-' ∨ c2 = '.' then
        match tryMatch ps r with
        | some res => some res
        | none => tryMatch ps (c2 :: r)
      else tryMatch ps (c2 :: r)

/-- `re.findall` for a fixed-shape pattern: the list of group tuples of all
non-overlapping leftmost matches.  Fuel is the length of the text; every
pattern used in the source consumes at least one character per match. -/
def scanAllAux (pat : List PatElem) : ℕ → List Char → List (List (List Char))
  | 0, _ => []
  | _ + 1, [] => []
  | fuel + 1, c :: rest =>
    match tryMatch pat (c :: rest) with
    | some (gs, r) => gs :: scanAllAux pat fuel r
    | none => scanAllAux pat fuel rest

/-- `pattern.findall(text)` for a fixed-shape pattern. -/
def scanAll (pat : List PatElem) (s : List Char) : List (List (List Char)) :=
  scanAllAux pat s.length s

/-- `CPF_PATTERN = (\d{3})\.?(\d{3})\.?(\d{3})-?(\d{2})` (document_validator.py:24). -/
def cpfPat : List PatElem :=
  [.grp 3, .opt '.', .grp 3, .opt '.', .grp 3, .opt '-', .grp 2]

/-- `CNPJ_PATTERN = (\d{2})\.?(\d{3})\.?(\d{3})/?(\d{4})-?(\d{2})` (document_validator.py:28). -/
def cnpjPat : List PatElem :=
  [.grp 2, .opt '.', .grp 3, .opt '.', .grp 3, .opt '/', .grp 4, .opt '-', .grp 2]

/-- `CNJ_FULL_PATTERN = (\d{7})-?(\d{2})\.?(\d{4})\.?(\d)\.?(\d{2})\.?(\d{4})`
(process_validator.py:32). -/
def cnjFullPat : List PatElem :=
  [.grp 7, .opt '-', .grp 2, .opt '.', .grp 4, .opt '.', .grp 1, .opt '.', .grp 2, .opt '.', .grp 4]

/-- The fixed-shape tail of `CNJ_LOOSE_PATTERN` after the `(\d{7,})` head
(process_validator.py:33). -/
def cnjLooseTail : List PatElem :=
  [.optSep, .grp 2, .optSep, .grp 4, .optSep, .grp 1, .optSep, .grp 2, .optSep, .grp 4]

/-- `(\d{20})`, the second of `ALTERNATIVE_PATTERNS` (process_validator.py:38). -/
def cnjTwentyPat : List PatElem := [.grp 20]

/-- Number of leading digit characters. -/
def leadingDigits : List Char → ℕ
  | [] => 0
  | c :: s => if c.isDigit then leadingDigits s + 1 else 0

/-- Backtracking for the `(\d{7,})` head of `CNJ_LOOSE_PATTERN`: greedily try
the longest digit prefix first and shrink down to 7 digits until the tail
matches. -/
def tryLooseHead (s : List Char) : ℕ → Option (List (List Char) × List Char)
  | 0 => none
  | k + 1 =>
    if k + 1 < 7 then none
    else
      match takeDigits (k + 1) s with
      | none => tryLooseHead s k
      | some (g, r) =>
        match tryMatch cnjLooseTail r with
        | some (gs, r2) => some (g :: gs, r2)
        | none => tryLooseHead s k

/-- Match `CNJ_LOOSE_PATTERN` at the head of `s`. -/
def tryLoose (s : List Char) : Option (List (List Char) × List Char) :=
  tryLooseHead s (leadingDigits s)

/-- `CNJ_LOOSE_PATTERN.findall(text)`. -/
def scanLooseAux : ℕ → List Char → List (List (List Char))
  | 0, _ => []
  | _ + 1, [] => []
  | fuel + 1, c :: rest =>
    match tryLoose (c :: rest) with
    | some (gs, r) => gs :: scanLooseAux fuel r
    | none => scanLooseAux fuel rest

/-- `CNJ_LOOSE_PATTERN.findall(text)`. -/
def scanLoose (s : List Char) : List (List (List Char)) :=
  scanLooseAux s.length s

/-- Python `\w` for the ASCII inputs exercised here. -/
def isWordChar (c : Char) : Bool := c.isAlphanum || c = '_'

/-- `re.findall(r'\b\d{11,14}\b', text)` (document_validator.py:72).  At a
position preceded by a non-word character (or the start), a run of `m`
digits matches iff `11 ≤ m ≤ 14` and the character after the run is absent
or a non-word character (the greedy `{11,14}` with a trailing `\b` admits no
other lengths); scanning then resumes after the match. -/
def scanNumsAux : ℕ → Bool → List Char → List (List Char)
  | 0, _, _ => []
  | _ + 1, _, [] => []
  | fuel + 1, prevWord, c :: rest =>
    if !prevWord && c.isDigit then
      let m := leadingDigits rest + 1
      let tail := rest.drop (m - 1)
      if 11 ≤ m ∧ m ≤ 14 ∧ (tail.headD ' ' |> isWordChar) = false then
        (c :: rest).take m :: scanNumsAux fuel true tail
      else
        scanNumsAux fuel (isWordChar c) rest
    else
      scanNumsAux fuel (isWordChar c) rest

/-- `re.findall(r'\b\d{11,14}\b', text)`. -/
def scanNums (s : List Char) : List (List Char) :=
  scanNumsAux s.length false s

/-! ## DocumentValidator: formatting and extraction -/

/-- `DocumentValidator._format_cpf` (document_validator.py:105-110). -/
def format_cpf (cpf : List Char) : Option (List Char) :=
  let clean := cleanDigits cpf
  if clean.length ≠ 11 then none
  else some (clean.take 3 ++ ['.'] ++ (clean.drop 3).take 3 ++ ['.'] ++
    (clean.drop 6).take 3 ++ ['-'] ++ (clean.drop 9).take 2)

/-- `DocumentValidator._format_cnpj` (document_validator.py:112-117). -/
def format_cnpj (cnpj : List Char) : Option (List Char) :=
  let clean := cleanDigits cnpj
  if clean.length ≠ 14 then none
  else some (clean.take 2 ++ ['.'] ++ (clean.drop 2).take 3 ++ ['.'] ++
    (clean.drop 5).take 3 ++ ['/'] ++ (clean.drop 8).take 4 ++ ['-'] ++
    (clean.drop 12).take 2)

/-- `DocumentValidator._is_valid_cpf_length` (document_validator.py:95-98). -/
def is_valid_cpf_length (cpf : List Char) : Bool := (cleanDigits cpf).length = 11

/-- `DocumentValidator._is_valid_cnpj_length` (document_validator.py:100-103). -/
def is_valid_cnpj_length (cnpj : List Char) : Bool := (cleanDigits cnpj).length = 14

/-- The CPF-pattern stage of `extract_documents` (document_validator.py:51-59):
join the four captured groups, check the length, format, validate, collect. -/
def cpfStage (text : List Char) : List (List Char) :=
  (scanAll cpfPat text).foldl
    (fun docs gs =>
      if gs.length = 4 then
        let cpf := gs.flatten
        if is_valid_cpf_length cpf then
          match format_cpf cpf with
          | some formatted => if validate_cpf formatted then docs ++ [formatted] else docs
          | none => docs
        else docs
      else docs)
    []

/-- The CNPJ-pattern stage of `extract_documents` (document_validator.py:61-69). -/
def cnpjStage (text : List Char) : List (List Char) :=
  (scanAll cnpjPat text).foldl
    (fun docs gs =>
      if gs.length = 5 then
        let cnpj := gs.flatten
        if is_valid_cnpj_length cnpj then
          match format_cnpj cnpj with
          | some formatted => if validate_cnpj formatted then docs ++ [formatted] else docs
          | none => docs
        else docs
      else docs)
    []

/-- The numbers-only stage of `extract_documents` (document_validator.py:71-81):
starting from the documents collected so far, append each valid bare 11- or
14-digit number (formatted) that is not already present. -/
def numsStage (text : List Char) (docs0 : List (List Char)) : List (List Char) :=
  (scanNums text).foldl
    (fun docs number =>
      if number.length = 11 ∧ validate_cpf number then
        match format_cpf number with
        | some formatted => if formatted ∈ docs then docs else docs ++ [formatted]
        | none => docs
      else if number.length = 14 ∧ validate_cnpj number then
        match format_cnpj number with
        | some formatted => if formatted ∈ docs then docs else docs ++ [formatted]
        | none => docs
      else docs)
    docs0

/-- The duplicate-removal loop of `extract_documents`
(document_validator.py:83-90): keep a document iff its digits-only form was
not seen before. -/
def dedupByClean : List (List Char) → List (List Char) → List (List Char)
  | [], _ => []
  | d :: ds, seen =>
    if cleanDigits d ∈ seen then dedupByClean ds seen
    else d :: dedupByClean ds (cleanDigits d :: seen)

/-- `DocumentValidator.extract_documents` (document_validator.py:38-93). -/
def extract_documents (text : List Char) : List (List Char) :=
  let text := pyStrip text
  dedupByClean (numsStage text (cpfStage text ++ cnpjStage text)) []

/-- `DocumentValidator.identify_document_type` (document_validator.py:193-210). -/
def identify_document_type (document : List Char) : Option (List Char) :=
  let clean := cleanDigits document
  if clean.length = 11 then
    if validate_cpf document then some "CPF".data else none
  else if clean.length = 14 then
    if validate_cnpj document then some "CNPJ".data else none
  else none

/-- `DocumentValidator.get_clean_document` (document_validator.py:253-263). -/
def get_clean_document (document : List Char) : List Char := cleanDigits document

/-- `extract_first_document` / `extract_first_valid_document`
(document_validator.py:240-251). -/
def extract_first_document (text : List Char) : Option (List Char) :=
  (extract_documents text).head?

/-! ## ProcessValidator -/

/-- Python `str.zfill(n)` for non-negative digit strings: left-pad with `'0'`
up to width `n` (longer strings are returned unchanged). -/
def zfill (n : ℕ) (s : List Char) : List Char :=
  List.replicate (n - s.length) '0' ++ s

/-- `VALID_SEGMENTS = [1, 2, 3, 4, 6, 8, 9]` (process_validator.py:43). -/
def validSegments : List ℕ := [1, 2, 3, 4, 6, 8, 9]

/-- Decimal value of a digit string, as Python `int`. -/
def digitsToNat (s : List Char) : ℕ := s.foldl (fun acc c => acc * 10 + digitVal c) 0

/-- `ProcessValidator._format_process_parts` (process_validator.py:107-149):
zero-fill the six fields, require the year in `range(1998, 2050)` and the
segment in `VALID_SEGMENTS`, and join the fields with the canonical CNJ
punctuation. -/
def format_process_parts (parts : List (List Char)) : Option (List Char) :=
  if parts.length ≠ 6 then none
  else
    let sequential := zfill 7 (parts.getD 0 [])
    let check_digits := zfill 2 (parts.getD 1 [])
    let year := zfill 4 (parts.getD 2 [])
    let segment := zfill 1 (parts.getD 3 [])
    let court := zfill 2 (parts.getD 4 [])
    let origin := zfill 4 (parts.getD 5 [])
    let year_int := digitsToNat year
    let segment_int := digitsToNat segment
    if ¬ (1998 ≤ year_int ∧ year_int < 2050) then none
    else if segment_int ∉ validSegments then none
    else some (sequential ++ ['-'] ++ check_digits ++ ['.'] ++ year ++ ['.'] ++
      segment ++ ['.'] ++ court ++ ['.'] ++ origin)

/-- Tier (a) of `extract_process_numbers`: the strict `CNJ_FULL_PATTERN` scan
(process_validator.py:62-67). -/
def cnjTierStrict (text : List Char) : List (List Char) :=
  (scanAll cnjFullPat text).foldl
    (fun acc gs =>
      match format_process_parts gs with
      | some formatted => acc ++ [formatted]
      | none => acc)
    []

/-- Tier (b) of `extract_process_numbers`: the `CNJ_LOOSE_PATTERN` scan
(process_validator.py:69-75). -/
def cnjTierLoose (text : List Char) : List (List Char) :=
  (scanLoose text).foldl
    (fun acc gs =>
      match format_process_parts gs with
      | some formatted => acc ++ [formatted]
      | none => acc)
    []

/-- Tier (c) of `extract_process_numbers` (process_validator.py:77-94): the
`ALTERNATIVE_PATTERNS` loop.  The first alternative pattern returns 6-tuples,
which the `isinstance(match, str)` guard discards, so only the 20-digit
pattern `(\d{20})` contributes; each 20-digit match is split into the six CNJ
fields. -/
def cnjTierTwenty (text : List Char) : List (List Char) :=
  (scanAll cnjTwentyPat text).foldl
    (fun acc gs =>
      match gs with
      | [m] =>
        if m.length = 20 then
          let parts := [m.take 7, (m.drop 7).take 2, (m.drop 9).take 4,
            (m.drop 13).take 1, (m.drop 14).take 2, (m.drop 16).take 4]
          match format_process_parts parts with
          | some formatted => acc ++ [formatted]
          | none => acc
        else acc
      | _ => acc)
    []

/-- The duplicate-removal loop of `extract_process_numbers`
(process_validator.py:96-102): exact-string deduplication, keeping first
occurrences. -/
def dedupStr : List (List Char) → List (List Char) → List (List Char)
  | [], _ => []
  | d :: ds, seen =>
    if d ∈ seen then dedupStr ds seen else d :: dedupStr ds (d :: seen)

/-- `ProcessValidator.extract_process_numbers` (process_validator.py:49-105). -/
def extract_process_numbers (text : List Char) : List (List Char) :=
  let text := pyStrip text
  let tierA := cnjTierStrict text
  let nums :=
    if tierA ≠ [] then tierA
    else
      let tierB := cnjTierLoose text
      if tierB ≠ [] then tierB
      else cnjTierTwenty text
  dedupStr nums []

/-- `ProcessValidator.validate_process_number` (process_validator.py:151-173):
true iff extraction yields a non-empty list of length exactly 1 (the
`try/except` is unreachable: extraction is total). -/
def validate_process_number (process_number : List Char) : Bool :=
  let extracted := extract_process_numbers process_number
  if extracted = [] then false else extracted.length = 1

/-- `extract_first_process` / `extract_first_valid_process`
(process_validator.py:198-209). -/
def extract_first_process (text : List Char) : Option (List Char) :=
  (extract_process_numbers text).head?

/-! ## PollingManager (src/tools/utils/polling_manager.py)

Wall-clock time is modelled as an exact rational number of seconds that
advances only during `time.sleep` (status checks and predicate calls are
instantaneous in the model).  An external call that may raise is modelled by
an `Outcome`; the Python `except Exception` handler around the loop body
catches every such exception. -/

/-- `PollingConfig` (polling_manager.py:14-21). -/
structure PollingConfig where
  initial_interval : ℚ
  max_interval : ℚ
  backoff_multiplier : ℚ
  max_wait_time : ℚ
  timeout_buffer : ℚ
deriving Repr, DecidableEq

/-- The dataclass defaults (polling_manager.py:17-21). -/
def defaultPollingConfig : PollingConfig :=
  { initial_interval := 2, max_interval := 30, backoff_multiplier := 3/2,
    max_wait_time := 900, timeout_buffer := 30 }

/-- Result of one call into caller-supplied code: a value, or a raised
exception. -/
inductive Outcome (α : Type) where
  | ok (a : α)
  | exn
deriving Repr, DecidableEq

/-- The caller-supplied functions of `poll_until_complete`
(polling_manager.py:89-94).  The status checker is indexed by its invocation
number, modelling an external world whose answers change over time; the
progress callback and completion predicate see only the returned status, as
in the source. -/
structure Callbacks (σ : Type) where
  status_checker : ℕ → Outcome σ
  progress_callback : Option (σ → Outcome Unit)
  completion_checker : σ → Outcome Bool

/-- `if progress_callback: progress_callback(status)` (polling_manager.py:125-126). -/
def runProgress {σ : Type} (cb : Option (σ → Outcome Unit)) (s : σ) : Outcome Unit :=
  match cb with
  | none => .ok ()
  | some f => f s

/-- The mutable state set by `reset` and updated by `wait_for_next_poll`:
elapsed wall-clock seconds, current interval, poll counter — plus the number
of status-checker invocations made so far (the index into the external
world). -/
structure PollState where
  elapsed : ℚ
  current_interval : ℚ
  poll_count : ℕ
  check_idx : ℕ
deriving Repr, DecidableEq

/-- `PollingManager.reset` (polling_manager.py:44-48). -/
def resetState (cfg : PollingConfig) : PollState :=
  { elapsed := 0, current_interval := cfg.initial_interval, poll_count := 0, check_idx := 0 }

/-- `PollingManager.should_continue_polling` (polling_manager.py:50-58). -/
def should_continue_polling (cfg : PollingConfig) (st : PollState) : Bool :=
  st.elapsed < cfg.max_wait_time - cfg.timeout_buffer

/-- `PollingManager.wait_for_next_poll` (polling_manager.py:60-72): sleep for
the current interval, then apply the capped exponential backoff and advance
the poll counter. -/
def wait_for_next_poll (cfg : PollingConfig) (st : PollState) : PollState :=
  { st with
    elapsed := st.elapsed + st.current_interval,
    current_interval := min (st.current_interval * cfg.backoff_multiplier) cfg.max_interval,
    poll_count := st.poll_count + 1 }

/-- What one iteration of the `while` body did. -/
inductive StepOut (σ : Type) where
  /-- `completion_checker` returned true: the loop returns this status. -/
  | done (s : σ)
  /-- The iteration ended in `wait_for_next_poll`; the loop continues. -/
  | next
deriving Repr, DecidableEq

/-- Record of one iteration of the `while` body (polling_manager.py:112-140). -/
structure StepResult (σ : Type) where
  out : StepOut σ
  state : PollState
  /-- Duration of the `time.sleep` performed by this iteration, if any. -/
  sleptDur : Option ℚ
  /-- Whether the progress callback was invoked. -/
  ranProgress : Bool
  /-- Whether the completion predicate was invoked. -/
  ranCompletion : Bool
  /-- Whether the `except Exception` handler caught a raised exception. -/
  caught : Bool
deriving Repr, DecidableEq

/-- One iteration of the `while` body of `poll_until_complete`
(polling_manager.py:112-140), entered with `should_continue_polling` true:
invoke the status checker; on success invoke the progress callback (if any),
then the completion predicate; return the status if complete, otherwise
sleep and back off.  Any exception from the three caller-supplied functions
is caught by the `except Exception` handler, which still sleeps and backs
off before the next attempt. -/
def pollStep {σ : Type} (cfg : PollingConfig) (cbs : Callbacks σ) (st : PollState) :
    StepResult σ :=
  let st1 : PollState := { st with check_idx := st.check_idx + 1 }
  match cbs.status_checker st.check_idx with
  | .exn =>
    ⟨.next, wait_for_next_poll cfg st1, some st.current_interval, false, false, true⟩
  | .ok s =>
    match runProgress cbs.progress_callback s with
    | .exn =>
      ⟨.next, wait_for_next_poll cfg st1, some st.current_interval,
        cbs.progress_callback.isSome, false, true⟩
    | .ok _ =>
      match cbs.completion_checker s with
      | .exn =>
        ⟨.next, wait_for_next_poll cfg st1, some st.current_interval,
          cbs.progress_callback.isSome, true, true⟩
      | .ok true => ⟨.done s, st1, none, cbs.progress_callback.isSome, true, false⟩
      | .ok false =>
        ⟨.next, wait_for_next_poll cfg st1, some st.current_interval,
          cbs.progress_callback.isSome, true, false⟩

/-- How `poll_until_complete` ended. -/
inductive PollResult (σ : Type) where
  /-- Returned a final status (polling_manager.py:129-132). -/
  | completed (s : σ)
  /-- Raised `PollingTimeoutError` carrying elapsed time and poll count
  (polling_manager.py:142-146). -/
  | timeout (elapsed : ℚ) (poll_count : ℕ)
  /-- Model artefact: the fuel bound was reached before the loop ended. -/
  | outOfFuel
deriving Repr, DecidableEq

/-- A finished run: the result, the final state, and the list of sleep
durations in the order they were performed. -/
structure RunOut (σ : Type) where
  result : PollResult σ
  final : PollState
  sleeps : List ℚ
deriving Repr, DecidableEq

/-- The `while should_continue_polling()` loop of `poll_until_complete`
(polling_manager.py:112-146), run for at most `fuel` iterations. -/
def pollLoopAux {σ : Type} (cfg : PollingConfig) (cbs : Callbacks σ) :
    ℕ → PollState → RunOut σ
  | 0, st => ⟨.outOfFuel, st, []⟩
  | fuel + 1, st =>
    if should_continue_polling cfg st then
      let r := pollStep cfg cbs st
      match r.out with
      | .done s => ⟨.completed s, r.state, []⟩
      | .next =>
        let rest := pollLoopAux cfg cbs fuel r.state
        ⟨rest.result, rest.final, r.sleptDur.toList ++ rest.sleeps⟩
    else ⟨.timeout st.elapsed st.poll_count, st, []⟩

/-- `PollingManager.poll_until_complete` (polling_manager.py:89-146):
`reset()` then the polling loop. -/
def poll_until_complete {σ : Type} (cfg : PollingConfig) (cbs : Callbacks σ)
    (fuel : ℕ) : RunOut σ :=
  pollLoopAux cfg cbs fuel (resetState cfg)

/-- The sequence of sleep intervals generated by the backoff rule:
`interval₀ = initial_interval`,
`intervalₖ₊₁ = min(intervalₖ · backoff_multiplier, max_interval)`. -/
def intervalSeq (cfg : PollingConfig) : ℕ → ℚ
  | 0 => cfg.initial_interval
  | k + 1 => min (intervalSeq cfg k * cfg.backoff_multiplier) cfg.max_interval

/-- Elapsed time after `k` completed (slept) iterations. -/
def elapsedAfter (cfg : PollingConfig) : ℕ → ℚ
  | 0 => 0
  | k + 1 => elapsedAfter cfg k + intervalSeq cfg k

/-- The loop state after `k` not-yet-complete iterations with no exception. -/
def stateAfter (cfg : PollingConfig) (k : ℕ) : PollState :=
  { elapsed := elapsedAfter cfg k, current_interval := intervalSeq cfg k,
    poll_count := k, check_idx := k }

/-! ## Consultation orchestrators
(src/tools/process_consultation.py, src/tools/document_consultation.py)

The remote collaborator (`WebJusticeClient`) is modelled as a record of
call outcomes; `consult_process` / `consult_document` compose extraction,
initiation, polling and fetch exactly as the source does, returning the
structured response together with the trace of collaborator calls made. -/

/-- The fields of the `initiate_search` response that the orchestrators
read. -/
structure SearchResponse where
  job_id : Option (List Char)
  user_id : Option (List Char)
  user_role : Option (List Char)
deriving Repr, DecidableEq

/-- Python truthiness of the optional strings tested with `if not x:`. -/
def pyTruthy : Option (List Char) → Bool
  | none => false
  | some s => !s.isEmpty

/-- Outcome of one remote call. -/
inductive CallRes (α : Type) where
  /-- Normal return. -/
  | ok (a : α)
  /-- `WebJusticeAPIError` with its message. -/
  | apiErr (msg : List Char)
deriving Repr, DecidableEq

/-- Outcome of `poll_search_completion` as seen by the orchestrator. -/
inductive PollCallRes where
  /-- Final status returned. -/
  | ok
  /-- `PollingTimeoutError` with its message. -/
  | timeoutErr (msg : List Char)
  /-- `WebJusticeAPIError` with its message. -/
  | apiErr (msg : List Char)
deriving Repr, DecidableEq

/-- The collaborator as the orchestrators see it. -/
structure WJClient where
  /-- `_get_client`: whether client construction plus `test_authentication`
  succeeds. -/
  auth_ok : Bool
  /-- `client.initiate_search(identifier, search_type)`. -/
  initiate_search : List Char → CallRes SearchResponse
  /-- `poll_search_completion(client, job_id, cb)`. -/
  poll_search : List Char → PollCallRes
  /-- `client.get_processes(identifier)` payload (opaque here). -/
  get_processes : List Char → CallRes (List Char)

/-- One collaborator call, for the trace. -/
inductive RemoteCall where
  | initiate (identifier : List Char)
  | poll (job : List Char)
  | fetch (identifier : List Char)
deriving Repr, DecidableEq

/-- A structured tool response: `{"status": "success", ...}` or
`{"status": "error", "error": {"code": ..., "message": ...}}`. -/
inductive ToolResponse where
  | success (tool : List Char) (identifier : List Char) (payload : List Char)
  | failure (tool : List Char) (code : List Char) (message : List Char)
deriving Repr, DecidableEq

/-- `ProcessConsultationTool.consult_process` (process_consultation.py:184-236),
paired with the trace of collaborator calls. -/
def consult_process (client : WJClient) (user_input : List Char) :
    ToolResponse × List RemoteCall :=
  match extract_first_process user_input with
  | none =>
    (.failure "process_consultation".data "NO_PROCESS_FOUND".data
      "No valid process number found in your message".data, [])
  | some process_number =>
    if ¬ pyTruthy (some process_number) then
      (.failure "process_consultation".data "NO_PROCESS_FOUND".data
        "No valid process number found in your message".data, [])
    else if ¬ client.auth_ok then
      (.failure "process_consultation".data "CONSULTATION_ERROR".data
        "Failed to initialize API client".data, [])
    else
      match client.initiate_search process_number with
      | .apiErr e =>
        (.failure "process_consultation".data "CONSULTATION_ERROR".data
          ("Failed to initiate search: ".data ++ e), [.initiate process_number])
      | .ok search_response =>
        if ¬ pyTruthy search_response.job_id then
          (.failure "process_consultation".data "SEARCH_INITIATION_FAILED".data
            "Failed to initiate search - no job ID returned".data,
            [.initiate process_number])
        else
          let job_id := search_response.job_id.getD []
          match client.poll_search job_id with
          | .timeoutErr e =>
            (.failure "process_consultation".data "CONSULTATION_ERROR".data
              ("Search timed out: ".data ++ e),
              [.initiate process_number, .poll job_id])
          | .apiErr e =>
            (.failure "process_consultation".data "CONSULTATION_ERROR".data
              ("Error during polling: ".data ++ e),
              [.initiate process_number, .poll job_id])
          | .ok =>
            match client.get_processes process_number with
            | .apiErr e =>
              (.failure "process_consultation".data "CONSULTATION_ERROR".data
                ("Failed to retrieve results: ".data ++ e),
                [.initiate process_number, .poll job_id, .fetch process_number])
            | .ok results =>
              (.success "process_consultation".data process_number results,
                [.initiate process_number, .poll job_id, .fetch process_number])

/-- `DocumentConsultationTool.consult_document` (document_consultation.py:64-109),
paired with the trace of collaborator calls.  The API receives the
digits-only form of the extracted document. -/
def consult_document (client : WJClient) (user_input : List Char) :
    ToolResponse × List RemoteCall :=
  match extract_first_document user_input with
  | none =>
    (.failure "document_consultation".data "NO_DOCUMENT_FOUND".data
      "No valid CPF or CNPJ found in your message".data, [])
  | some document =>
    if ¬ pyTruthy (some document) then
      (.failure "document_consultation".data "NO_DOCUMENT_FOUND".data
        "No valid CPF or CNPJ found in your message".data, [])
    else if ¬ client.auth_ok then
      (.failure "document_consultation".data "CONSULTATION_ERROR".data
        "Failed to initialize API client".data, [])
    else
      let clean_document := get_clean_document document
      match client.initiate_search clean_document with
      | .apiErr e =>
        (.failure "document_consultation".data "CONSULTATION_ERROR".data
          ("Failed to initiate search: ".data ++ e), [.initiate clean_document])
      | .ok search_response =>
        if ¬ pyTruthy search_response.job_id then
          (.failure "document_consultation".data "SEARCH_INITIATION_FAILED".data
            "Failed to initiate search - no job ID returned".data,
            [.initiate clean_document])
        else
          let job_id := search_response.job_id.getD []
          match client.poll_search job_id with
          | .timeoutErr e =>
            (.failure "document_consultation".data "CONSULTATION_ERROR".data
              ("Search timed out: ".data ++ e),
              [.initiate clean_document, .poll job_id])
          | .apiErr e =>
            (.failure "document_consultation".data "CONSULTATION_ERROR".data
              ("Error during polling: ".data ++ e),
              [.initiate clean_document, .poll job_id])
          | .ok =>
            match client.get_processes clean_document with
            | .apiErr e =>
              (.failure "document_consultation".data "CONSULTATION_ERROR".data
                ("Failed to retrieve results: ".data ++ e),
                [.initiate clean_document, .poll job_id, .fetch clean_document])
            | .ok results =>
              (.success "document_consultation".data document results,
                [.initiate clean_document, .poll job_id, .fetch clean_document])

/-! ## Claim-side (spec-worded) validity predicates -/

/-- The CPF validity condition exactly as the specification words it: the
digits-only form has 11 digits `d0..d10`, the digits are not all identical,
and the two check-digit formulas hold. -/
def cpfSpecValid (cpf : List Char) : Prop :=
  let ds := (cleanDigits cpf).map digitVal
  ds.length = 11 ∧
  (¬ ∀ i, i < 11 → ds.getD i 0 = ds.getD 0 0) ∧
  ds.getD 9 0 = (∑ i in Finset.range 9, ds.getD i 0 * (10 - i)) * 10 % 11 % 10 ∧
  ds.getD 10 0 = (∑ i in Finset.range 10, ds.getD i 0 * (11 - i)) * 10 % 11 % 10

/-- The CNPJ validity condition exactly as the specification words it. -/
def cnpjSpecValid (cnpj : List Char) : Prop :=
  let ds := (cleanDigits cnpj).map digitVal
  ds.length = 14 ∧
  (¬ ∀ i, i < 14 → ds.getD i 0 = ds.getD 0 0) ∧
  ds.getD 12 0 =
    (let s1 := ∑ i in Finset.range 12, ds.getD i 0 * cnpjWeights1.getD i 0
     if s1 % 11 ≥ 2 then 11 - s1 % 11 else 0) ∧
  ds.getD 13 0 =
    (let s2 := ∑ i in Finset.range 13, ds.getD i 0 * cnpjWeights2.getD i 0
     if s2 % 11 ≥ 2 then 11 - s2 % 11 else 0)

/-- A status checker that returns its invocation index, with a completion
predicate that is ready from status `N` on. -/
def cbsReadyAt (N : ℕ) : Callbacks ℕ :=
  { status_checker := fun i => .ok i,
    progress_callback := none,
    completion_checker := fun s => .ok (decide (N ≤ s)) }

/-- A status checker that always succeeds but is never ready. -/
def cbsNeverReady : Callbacks ℕ :=
  { status_checker := fun i => .ok i,
    progress_callback := none,
    completion_checker := fun _ => .ok false }

/-- A status checker that always succeeds while the completion predicate
always raises. -/
def cbsPredicateRaises : Callbacks ℕ :=
  { status_checker := fun i => .ok i,
    progress_callback := none,
    completion_checker := fun _ => .exn }

/-- A status checker that always raises. -/
def cbsCheckerRaises : Callbacks ℕ :=
  { status_checker := fun _ => .exn,
    progress_callback := none,
    completion_checker := fun _ => .ok false }

/-- The concrete configuration of the timeout scenario:
`max_wait_time = 5`, `timeout_buffer = 1`, `initial_interval = 2` (other
fields at their dataclass defaults). -/
def cfgShort : PollingConfig :=
  { initial_interval := 2, max_interval := 30, backoff_multiplier := 3/2,
    max_wait_time := 5, timeout_buffer := 1 }

/-- A configuration whose time budget is exhausted at entry
(`max_wait_time ≤ timeout_buffer`). -/
def cfgExhausted : PollingConfig :=
  { initial_interval := 2, max_interval := 30, backoff_multiplier := 3/2,
    max_wait_time := 5, timeout_buffer := 30 }

/-- The mixed text of the C8 counterexample: a valid CNPJ occurring before a
valid CPF. -/
def mixedDocText : List Char := "11.222.333/0001-81 e 529.982.247-25".data

/-- A collaborator whose initiation succeeds but carries no `job_id`. -/
def clientNoJobId : WJClient :=
  { auth_ok := true,
    initiate_search := fun _ => .ok ⟨none, none, none⟩,
    poll_search := fun _ => .ok,
    get_processes := fun _ => .ok [] }

/-! ### Digit-character facts -/

theorem digit_char_le (c : Char) (h : c.isDigit = true) : 48 ≤ c.toNat ∧ c.toNat ≤ 57 := by
  simp [Char.isDigit] at h
  exact ⟨h.1, h.2⟩

theorem digit_char_inj {a b : Char} (ha : a.isDigit = true) (hb : b.isDigit = true)
    (h : digitVal a = digitVal b) : a = b := by
  have h48a := (digit_char_le a ha).1
  have h48b := (digit_char_le b hb).1
  have : a.toNat = b.toNat := by
    unfold digitVal at h
    omega
  have hval : a.val = b.val := by
    have := UInt32.toNat.inj (by simpa [Char.toNat] using this)
    exact this
  exact Char.ext hval

theorem getD_map_digitVal (l : List Char) (i : ℕ) (h : i < l.length) :
    (l.map digitVal).getD i 0 = digitVal (l.getD i '0') := by
  rw [List.getD_eq_getElem _ _ (by simpa using h), List.getD_eq_getElem _ _ h,
    List.getElem_map]

theorem headI_eq_getD_zero (l : List Char) (h : 0 < l.length) :
    l.headI = l.getD 0 '0' := by
  cases l with
  | nil => simp at h
  | cons c t => rfl

/-- On a list of digit characters of length `n > 0`, the source-level
all-identical-characters test agrees with the spec-level all-identical-digits
test. -/
theorem allSame_char_iff_digit (l : List Char) (n : ℕ) (hn : 0 < n)
    (hlen : l.length = n) (hdig : ∀ c ∈ l, c.isDigit = true) :
    l = List.replicate n l.headI ↔
      ∀ i, i < n → (l.map digitVal).getD i 0 = (l.map digitVal).getD 0 0 := by
  constructor
  · intro hrep i hi
    have hli : i < l.length := by omega
    have hl0 : 0 < l.length := by omega
    rw [getD_map_digitVal l i hli, getD_map_digitVal l 0 hl0]
    obtain ⟨-, hmem⟩ := List.eq_replicate_iff.mp hrep
    rw [List.getD_eq_getElem _ _ hli, List.getD_eq_getElem _ _ hl0,
      hmem _ (List.getElem_mem _), hmem _ (List.getElem_mem _)]
  · intro hall
    have hmem : ∀ b ∈ l, b = l.headI := by
      intro b hb
      obtain ⟨i, hi, hget⟩ := List.mem_iff_getElem.mp hb
      have hib : i < n := by omega
      have := hall i hib
      rw [getD_map_digitVal l i (by omega), getD_map_digitVal l 0 (by omega)] at this
      have hbi : l.getD i '0' = l[i] := List.getD_eq_getElem _ _ (by omega)
      have hb0 : l.getD 0 '0' = b → True := fun _ => trivial
      have heq : l.getD i '0' = l.getD 0 '0' := by
        refine digit_char_inj ?_ ?_ this
        · exact hdig _ (by rw [hbi]; exact List.getElem_mem _)
        · exact hdig _ (by
            rw [List.getD_eq_getElem _ _ (by omega)]
            exact List.getElem_mem _)
      rw [← hget, ← hbi, heq, ← headI_eq_getD_zero l (by omega)]
    exact List.eq_replicate_iff.mpr ⟨hlen, hmem⟩

/-- **C1.** `validate_cpf` returns true exactly when the digits-only form has
11 digits, they are not all identical, and both check-digit formulas of the
specification hold. -/
theorem validate_cpf_iff_spec (cpf : List Char) :
    validate_cpf cpf = true ↔ cpfSpecValid cpf := by
  have hdig : ∀ c ∈ cleanDigits cpf, c.isDigit = true := by
    intro c hc
    exact (List.mem_filter.mp hc).2
  simp only [validate_cpf, cpfSpecValid]
  set clean := cleanDigits cpf with hcdef
  by_cases hlen : clean.length = 11
  · rw [if_neg (fun h => h hlen)]
    by_cases hrep : clean = List.replicate 11 clean.headI
    · rw [if_pos hrep]
      have hall : ∀ i, i < 11 → (clean.map digitVal).getD i 0 = (clean.map digitVal).getD 0 0 :=
        (allSame_char_iff_digit clean 11 (by omega) hlen hdig).mp hrep
      constructor
      · intro h
        simp at h
      · rintro ⟨-, hnall, -⟩
        exact absurd hall hnall
    · rw [if_neg hrep, decide_eq_true_iff]
      have hmaplen : (clean.map digitVal).length = 11 := by simpa using hlen
      have hnall : ¬ ∀ i, i < 11 → (clean.map digitVal).getD i 0 = (clean.map digitVal).getD 0 0 := by
        intro hall
        exact hrep ((allSame_char_iff_digit clean 11 (by omega) hlen hdig).mpr hall)
      have hsum1 : ∑ i in Finset.range 9, (clean.map digitVal).getD i 0 * (10 - i) =
          ∑ i in Finset.range 9, digitVal (clean.getD i '0') * (10 - i) := by
        refine Finset.sum_congr rfl fun i hi => ?_
        rw [getD_map_digitVal clean i (by simp at hi; omega)]
      have hsum2 : ∑ i in Finset.range 10, (clean.map digitVal).getD i 0 * (11 - i) =
          ∑ i in Finset.range 10, digitVal (clean.getD i '0') * (11 - i) := by
        refine Finset.sum_congr rfl fun i hi => ?_
        rw [getD_map_digitVal clean i (by simp at hi; omega)]
      have h9 : (clean.map digitVal).getD 9 0 = digitVal (clean.getD 9 '0') :=
        getD_map_digitVal clean 9 (by omega)
      have h10 : (clean.map digitVal).getD 10 0 = digitVal (clean.getD 10 '0') :=
        getD_map_digitVal clean 10 (by omega)
      constructor
      · rintro ⟨hd1, hd2⟩
        exact ⟨hmaplen, hnall, by rw [h9, hsum1, ← hd1], by rw [h10, hsum2, ← hd2]⟩
      · rintro ⟨-, -, hd1, hd2⟩
        rw [h9, hsum1] at hd1
        rw [h10, hsum2] at hd2
        exact ⟨hd1.symm, hd2.symm⟩
  · rw [if_pos hlen]
    constructor
    · intro h
      simp at h
    · rintro ⟨h, -⟩
      exact absurd (by simpa using h) hlen

/-- **C2.** `validate_cnpj` returns true exactly when the digits-only form
has 14 digits, they are not all identical, and positions 12 and 13 carry the
check digits computed with the two weight tables of the specification
(`digit = 11 - (sum mod 11)` if the remainder is at least 2, else `0`). -/
theorem validate_cnpj_iff_spec (cnpj : List Char) :
    validate_cnpj cnpj = true ↔ cnpjSpecValid cnpj := by
  have hdig : ∀ c ∈ cleanDigits cnpj, c.isDigit = true := by
    intro c hc
    exact (List.mem_filter.mp hc).2
  simp only [validate_cnpj, cnpjSpecValid]
  set clean := cleanDigits cnpj with hcdef
  by_cases hlen : clean.length = 14
  · rw [if_neg (fun h => h hlen)]
    by_cases hrep : clean = List.replicate 14 clean.headI
    · rw [if_pos hrep]
      have hall : ∀ i, i < 14 → (clean.map digitVal).getD i 0 = (clean.map digitVal).getD 0 0 :=
        (allSame_char_iff_digit clean 14 (by omega) hlen hdig).mp hrep
      constructor
      · intro h
        simp at h
      · rintro ⟨-, hnall, -⟩
        exact absurd hall hnall
    · rw [if_neg hrep, decide_eq_true_iff]
      have hmaplen : (clean.map digitVal).length = 14 := by simpa using hlen
      have hnall : ¬ ∀ i, i < 14 → (clean.map digitVal).getD i 0 = (clean.map digitVal).getD 0 0 := by
        intro hall
        exact hrep ((allSame_char_iff_digit clean 14 (by omega) hlen hdig).mpr hall)
      have hsum1 : ∑ i in Finset.range 12, (clean.map digitVal).getD i 0 * cnpjWeights1.getD i 0 =
          ∑ i in Finset.range 12, digitVal (clean.getD i '0') * cnpjWeights1.getD i 0 := by
        refine Finset.sum_congr rfl fun i hi => ?_
        rw [getD_map_digitVal clean i (by simp at hi; omega)]
      have hsum2 : ∑ i in Finset.range 13, (clean.map digitVal).getD i 0 * cnpjWeights2.getD i 0 =
          ∑ i in Finset.range 13, digitVal (clean.getD i '0') * cnpjWeights2.getD i 0 := by
        refine Finset.sum_congr rfl fun i hi => ?_
        rw [getD_map_digitVal clean i (by simp at hi; omega)]
      have h12 : (clean.map digitVal).getD 12 0 = digitVal (clean.getD 12 '0') :=
        getD_map_digitVal clean 12 (by omega)
      have h13 : (clean.map digitVal).getD 13 0 = digitVal (clean.getD 13 '0') :=
        getD_map_digitVal clean 13 (by omega)
      constructor
      · rintro ⟨hd1, hd2⟩
        exact ⟨hmaplen, hnall, by rw [h12, hsum1, ← hd1], by rw [h13, hsum2, ← hd2]⟩
      · rintro ⟨-, -, hd1, hd2⟩
        rw [h12, hsum1] at hd1
        rw [h13, hsum2] at hd2
        exact ⟨hd1.symm, hd2.symm⟩
  · rw [if_pos hlen]
    constructor
    · intro h
      simp at h
    · rintro ⟨h, -⟩
      exact absurd (by simpa using h) hlen

theorem intervalSeq_le_max (cfg : PollingConfig)
    (hcap : cfg.initial_interval ≤ cfg.max_interval) :
    ∀ k, intervalSeq cfg k ≤ cfg.max_interval
  | 0 => hcap
  | _ + 1 => min_le_right _ _

theorem intervalSeq_nonneg (cfg : PollingConfig)
    (h0 : 0 ≤ cfg.initial_interval) (hcap : cfg.initial_interval ≤ cfg.max_interval)
    (hmult : 1 ≤ cfg.backoff_multiplier) :
    ∀ k, 0 ≤ intervalSeq cfg k
  | 0 => h0
  | k + 1 => by
    refine le_min ?_ (h0.trans hcap)
    exact mul_nonneg (intervalSeq_nonneg cfg h0 hcap hmult k) (zero_le_one.trans hmult)

theorem intervalSeq_mono (cfg : PollingConfig)
    (h0 : 0 ≤ cfg.initial_interval) (hcap : cfg.initial_interval ≤ cfg.max_interval)
    (hmult : 1 ≤ cfg.backoff_multiplier) (k : ℕ) :
    intervalSeq cfg k ≤ intervalSeq cfg (k + 1) := by
  refine le_min ?_ (intervalSeq_le_max cfg hcap k)
  exact le_mul_of_one_le_right (intervalSeq_nonneg cfg h0 hcap hmult k) hmult

/-- Run of the polling loop against a status checker that is not ready for
its first `N` invocations and ready on invocation `N + 1` (index `N`): the
loop performs exactly one not-complete iteration per index `k < N`, sleeping
`intervalSeq cfg k` each time, and returns the status of invocation `N`. -/
theorem pollLoopAux_completes (cfg : PollingConfig) {σ : Type} (cbs : Callbacks σ)
    (s : ℕ → σ) (N : ℕ)
    (hchk : ∀ i, i ≤ N → cbs.status_checker i = .ok (s i))
    (hprog : ∀ i, i ≤ N → runProgress cbs.progress_callback (s i) = .ok ())
    (hcomp : ∀ i, i < N → cbs.completion_checker (s i) = .ok false)
    (hcompN : cbs.completion_checker (s N) = .ok true)
    (hguard : ∀ j, j ≤ N → should_continue_polling cfg (stateAfter cfg j) = true) :
    ∀ m k fuel, k + m = N → m + 1 ≤ fuel →
      pollLoopAux cfg cbs fuel (stateAfter cfg k) =
        ⟨.completed (s N), { stateAfter cfg N with check_idx := N + 1 },
          (List.range' k m).map (intervalSeq cfg)⟩ := by
  intro m
  induction m with
  | zero =>
    intro k fuel hk hfuel
    obtain ⟨f, rfl⟩ : ∃ f, fuel = f + 1 := ⟨fuel - 1, by omega⟩
    have hkN : k = N := by omega
    subst hkN
    have hstep : pollStep cfg cbs (stateAfter cfg k) =
        ⟨.done (s k), { stateAfter cfg k with check_idx := k + 1 }, none,
          cbs.progress_callback.isSome, true, false⟩ := by
      simp only [pollStep, stateAfter, hchk k le_rfl, hprog k le_rfl, hcompN]
    simp only [pollLoopAux]
    rw [if_pos (hguard k le_rfl), hstep]
    rfl
  | succ m ih =>
    intro k fuel hk hfuel
    obtain ⟨f, rfl⟩ : ∃ f, fuel = f + 1 := ⟨fuel - 1, by omega⟩
    have hkN : k < N := by omega
    have hstep : pollStep cfg cbs (stateAfter cfg k) =
        ⟨.next, wait_for_next_poll cfg { stateAfter cfg k with check_idx := k + 1 },
          some (intervalSeq cfg k), cbs.progress_callback.isSome, true, false⟩ := by
      simp only [pollStep, stateAfter, hchk k (by omega), hprog k (by omega), hcomp k hkN]
    have hwait : wait_for_next_poll cfg { stateAfter cfg k with check_idx := k + 1 } =
        stateAfter cfg (k + 1) := by
      simp [wait_for_next_poll, stateAfter, elapsedAfter, intervalSeq]
    simp only [pollLoopAux]
    rw [if_pos (hguard k (by omega)), hstep]
    simp only [hwait, ih (k + 1) f (by omega) (by omega)]
    rfl

/-! ## Polling claims -/

/-- **C3.** If the status checker reports not-ready on its first `N`
invocations and ready on invocation `N + 1`, and the time budget is never
exhausted up to that point, then `poll_until_complete` returns the status of
invocation `N + 1`, performs exactly `N` sleeps, and the `k`-th sleep lasts
`intervalSeq cfg k`, where each successive duration equals
`min(previous × backoff_multiplier, max_interval)`; the durations are
non-decreasing and capped at `max_interval`. -/
theorem polling_returns_after_N_with_backoff (cfg : PollingConfig) {σ : Type}
    (cbs : Callbacks σ) (s : ℕ → σ) (N fuel : ℕ)
    (hchk : ∀ i, i ≤ N → cbs.status_checker i = .ok (s i))
    (hprog : ∀ i, i ≤ N → runProgress cbs.progress_callback (s i) = .ok ())
    (hcomp : ∀ i, i < N → cbs.completion_checker (s i) = .ok false)
    (hcompN : cbs.completion_checker (s N) = .ok true)
    (htime : ∀ k, k ≤ N → elapsedAfter cfg k < cfg.max_wait_time - cfg.timeout_buffer)
    (hfuel : N + 1 ≤ fuel)
    (h0 : 0 ≤ cfg.initial_interval) (hcap : cfg.initial_interval ≤ cfg.max_interval)
    (hmult : 1 ≤ cfg.backoff_multiplier) :
    poll_until_complete cfg cbs fuel =
      ⟨.completed (s N), { stateAfter cfg N with check_idx := N + 1 },
        (List.range N).map (intervalSeq cfg)⟩ ∧
    ((List.range N).map (intervalSeq cfg)).length = N ∧
    (∀ k, intervalSeq cfg (k + 1) =
      min (intervalSeq cfg k * cfg.backoff_multiplier) cfg.max_interval) ∧
    (∀ k, intervalSeq cfg k ≤ intervalSeq cfg (k + 1)) ∧
    (∀ k, intervalSeq cfg k ≤ cfg.max_interval) := by
  have hguard : ∀ j, j ≤ N → should_continue_polling cfg (stateAfter cfg j) = true := by
    intro j hj
    simp [should_continue_polling, stateAfter, htime j hj]
  have hrun := pollLoopAux_completes cfg cbs s N hchk hprog hcomp hcompN hguard N 0 fuel
    (by omega) (by omega)
  refine ⟨?_, by simp, fun k => rfl,
    fun k => intervalSeq_mono cfg h0 hcap hmult k,
    fun k => intervalSeq_le_max cfg hcap k⟩
  have hstart : stateAfter cfg 0 = resetState cfg := rfl
  rw [poll_until_complete, ← hstart, hrun, List.range_eq_range']

/-- Witness for C3: with the default configuration and readiness at the
third invocation, the run returns status `2` after sleeping `2`s and `3`s. -/
theorem polling_returns_after_N_with_backoff_witness :
    poll_until_complete defaultPollingConfig (cbsReadyAt 2) 3 =
      ⟨.completed 2, { stateAfter defaultPollingConfig 2 with check_idx := 2 + 1 },
        (List.range 2).map (intervalSeq defaultPollingConfig)⟩ :=
  (polling_returns_after_N_with_backoff defaultPollingConfig (cbsReadyAt 2) (fun i => i) 2 3
    (fun i _ => rfl) (fun i _ => rfl) (fun i hi => by simp [cbsReadyAt]; omega)
    (by simp [cbsReadyAt])
    (by
      intro k hk
      interval_cases k <;>
        norm_num [elapsedAfter, intervalSeq, defaultPollingConfig, min_def])
    (by omega) (by norm_num [defaultPollingConfig])
    (by norm_num [defaultPollingConfig]) (by norm_num [defaultPollingConfig])).1

/-- **C4 counterexample.** Exceptions raised by the caller-supplied
completion predicate do *not* propagate out of `poll_until_complete`: with a
predicate that raises on every invocation, every iteration's exception is
caught (`caught = true` already on the first step), the loop keeps sleeping
and retrying, and the run ends in `PollingTimeoutError` exactly as if the
predicate had returned false. -/
theorem polling_predicate_exception_does_not_propagate :
    poll_until_complete cfgShort cbsPredicateRaises 10 =
      ⟨.timeout 5 2, ⟨5, 9/2, 2, 2⟩, [2, 3]⟩ ∧
    (pollStep cfgShort cbsPredicateRaises (resetState cfgShort)).caught = true := by
  constructor
  · simp only [poll_until_complete, pollLoopAux, pollStep, cbsPredicateRaises, runProgress,
      wait_for_next_poll, resetState, cfgShort, should_continue_polling]
    norm_num [min_def]
  · simp [pollStep, cbsPredicateRaises, runProgress]

/-- **C4 (amended).** A `timeout` outcome is produced only once the elapsed
time has reached `max_wait_time - timeout_buffer`, and — predicate
exceptions being caught like status-checker errors rather than propagating —
a run of the loop ends either by returning a final status or with this
timeout error.  Concretely, with `max_wait_time = 5`, `timeout_buffer = 1`
and `initial_interval = 2` and a checker that is never ready, the error is
raised with elapsed time `5`s (between `4`s and `6`s) after two sleeps. -/
theorem polling_timeout_only_after_deadline :
    (∀ (cfg : PollingConfig) (cbs : Callbacks ℕ) (fuel : ℕ) (st : PollState)
      (e : ℚ) (c : ℕ),
        (pollLoopAux cfg cbs fuel st).result = .timeout e c →
        cfg.max_wait_time - cfg.timeout_buffer ≤ e) ∧
    poll_until_complete cfgShort cbsNeverReady 10 =
      ⟨.timeout 5 2, ⟨5, 9/2, 2, 2⟩, [2, 3]⟩ ∧
    (4 : ℚ) ≤ 5 ∧ (5 : ℚ) ≤ 6 ∧
    (poll_until_complete cfgShort cbsPredicateRaises 10).result =
      (poll_until_complete cfgShort cbsNeverReady 10).result := by
  refine ⟨?_,
    by
      simp only [poll_until_complete, pollLoopAux, pollStep, cbsNeverReady, runProgress,
        wait_for_next_poll, resetState, cfgShort, should_continue_polling]
      norm_num [min_def],
    by norm_num, by norm_num,
    by
      simp only [poll_until_complete, pollLoopAux, pollStep, cbsNeverReady, cbsPredicateRaises,
        runProgress, wait_for_next_poll, resetState, cfgShort, should_continue_polling]⟩
  intro cfg cbs fuel
  induction fuel with
  | zero =>
    intro st e c h
    simp [pollLoopAux] at h
  | succ f ih =>
    intro st e c h
    rw [pollLoopAux] at h
    by_cases hg : should_continue_polling cfg st = true
    · rw [if_pos hg] at h
      rcases hstep : pollStep cfg cbs st with ⟨s | _, state, sd, rp, rc, ca⟩
      · rw [hstep] at h
        simp at h
      · rw [hstep] at h
        simp only at h
        exact ih state e c h
    · rw [if_neg hg] at h
      simp only at h
      injection h with h1 h2
      have hn : ¬ st.elapsed < cfg.max_wait_time - cfg.timeout_buffer := by
        simpa [should_continue_polling] using hg
      rw [← h1]
      exact le_of_not_lt hn

/-- Witness for the amended C4: applying the deadline bound to the concrete
short-budget run shows its recorded elapsed time `5` is past the deadline. -/
theorem polling_timeout_only_after_deadline_witness :
    cfgShort.max_wait_time - cfgShort.timeout_buffer ≤ 5 :=
  polling_timeout_only_after_deadline.1 cfgShort cbsNeverReady 10
    (resetState cfgShort) 5 2
    (by
      simp only [pollLoopAux, pollStep, cbsNeverReady, runProgress,
        wait_for_next_poll, resetState, cfgShort, should_continue_polling]
      norm_num [min_def])

/-- **C5.** When the status checker raises during an iteration, the
exception is caught (not propagated): the step still sleeps for the current
interval and applies the same interval/poll-counter update as a normal
not-complete iteration, the progress callback and completion predicate are
not invoked, and the loop simply continues with the updated state. -/
theorem polling_checker_exception_consumes_slot {σ : Type} (cfg : PollingConfig)
    (cbs : Callbacks σ) (st : PollState)
    (hexn : cbs.status_checker st.check_idx = .exn) :
    pollStep cfg cbs st =
      ⟨.next, wait_for_next_poll cfg { st with check_idx := st.check_idx + 1 },
        some st.current_interval, false, false, true⟩ ∧
    (∀ (cbs2 : Callbacks σ) (s2 : σ),
      cbs2.status_checker st.check_idx = .ok s2 →
      runProgress cbs2.progress_callback s2 = .ok () →
      cbs2.completion_checker s2 = .ok false →
      (pollStep cfg cbs2 st).state = (pollStep cfg cbs st).state ∧
      (pollStep cfg cbs2 st).sleptDur = (pollStep cfg cbs st).sleptDur) ∧
    (∀ fuel, should_continue_polling cfg st = true →
      pollLoopAux cfg cbs (fuel + 1) st =
        ⟨(pollLoopAux cfg cbs fuel
            (wait_for_next_poll cfg { st with check_idx := st.check_idx + 1 })).result,
          (pollLoopAux cfg cbs fuel
            (wait_for_next_poll cfg { st with check_idx := st.check_idx + 1 })).final,
          st.current_interval ::
            (pollLoopAux cfg cbs fuel
              (wait_for_next_poll cfg { st with check_idx := st.check_idx + 1 })).sleeps⟩) := by
  have hstep : pollStep cfg cbs st =
      ⟨.next, wait_for_next_poll cfg { st with check_idx := st.check_idx + 1 },
        some st.current_interval, false, false, true⟩ := by
    simp [pollStep, hexn]
  refine ⟨hstep, ?_, ?_⟩
  · intro cbs2 s2 hok hpr hcf
    rw [hstep]
    simp [pollStep, hok, hpr, hcf]
  · intro fuel hg
    rw [pollLoopAux, if_pos hg, hstep]
    rfl

/-- Witness for C5 at a concrete state: a raising checker at the default
initial state produces the failed-check step record. -/
theorem polling_checker_exception_consumes_slot_witness :
    pollStep defaultPollingConfig cbsCheckerRaises (resetState defaultPollingConfig) =
      ⟨.next,
        wait_for_next_poll defaultPollingConfig
          { resetState defaultPollingConfig with
              check_idx := (resetState defaultPollingConfig).check_idx + 1 },
        some (resetState defaultPollingConfig).current_interval, false, false, true⟩ :=
  (polling_checker_exception_consumes_slot defaultPollingConfig cbsCheckerRaises
    (resetState defaultPollingConfig) rfl).1

/-- **C6 counterexample.** The timeout condition is the `while` guard and is
tested *before* any status check: with a configuration whose budget is
already exhausted at entry (`max_wait_time = 5 ≤ 30 = timeout_buffer`), the
loop raises the timeout immediately — zero status-checker invocations
(`check_idx = 0` in the final state), even though the checker would have
been ready at once. -/
theorem polling_timeout_decided_before_any_check :
    poll_until_complete cfgExhausted (cbsReadyAt 0) 5 =
      ⟨.timeout 0 0, resetState cfgExhausted, []⟩ ∧
    (resetState cfgExhausted).check_idx = 0 := by
  constructor
  · simp only [poll_until_complete, pollLoopAux, resetState, cfgExhausted,
      should_continue_polling]
    norm_num
  · rfl

/-- **C6 (amended).** Within an iteration the order is: timeout test (the
loop guard) first, then status check, then progress callback, then
completion predicate; a true predicate returns that status without sleeping,
a false one is followed by the sleep, and the guard is re-tested only after
the sleep.  Consequently, when the budget is exhausted at entry
(`max_wait_time ≤ timeout_buffer`) the loop times out with zero status
checks. -/
theorem polling_iteration_order (σ : Type) :
    (∀ (cfg : PollingConfig) (cbs : Callbacks σ) (st : PollState) (fuel : ℕ),
      should_continue_polling cfg st = false →
      pollLoopAux cfg cbs (fuel + 1) st = ⟨.timeout st.elapsed st.poll_count, st, []⟩) ∧
    (∀ (cfg : PollingConfig) (cbs : Callbacks σ) (st : PollState) (s : σ),
      cbs.status_checker st.check_idx = .ok s →
      runProgress cbs.progress_callback s = .exn →
      (pollStep cfg cbs st).ranCompletion = false ∧
      (pollStep cfg cbs st).sleptDur = some st.current_interval) ∧
    (∀ (cfg : PollingConfig) (cbs : Callbacks σ) (st : PollState) (s : σ) (fuel : ℕ),
      should_continue_polling cfg st = true →
      cbs.status_checker st.check_idx = .ok s →
      runProgress cbs.progress_callback s = .ok () →
      cbs.completion_checker s = .ok true →
      pollLoopAux cfg cbs (fuel + 1) st =
        ⟨.completed s, { st with check_idx := st.check_idx + 1 }, []⟩) ∧
    (∀ (cfg : PollingConfig) (cbs : Callbacks σ) (st : PollState) (s : σ),
      cbs.status_checker st.check_idx = .ok s →
      runProgress cbs.progress_callback s = .ok () →
      cbs.completion_checker s = .ok false →
      (pollStep cfg cbs st).out = .next ∧
      (pollStep cfg cbs st).sleptDur = some st.current_interval) ∧
    (∀ (cfg : PollingConfig) (cbs : Callbacks σ) (fuel : ℕ),
      cfg.max_wait_time ≤ cfg.timeout_buffer →
      poll_until_complete cfg cbs (fuel + 1) =
        ⟨.timeout 0 0, resetState cfg, []⟩) := by
  refine ⟨?_, ?_, ?_, ?_, ?_⟩
  · intro cfg cbs st fuel hg
    rw [pollLoopAux, if_neg (by simp [hg])]
  · intro cfg cbs st s hok hpr
    simp [pollStep, hok, hpr]
  · intro cfg cbs st s fuel hg hok hpr hc
    rw [pollLoopAux, if_pos hg]
    have hstep : pollStep cfg cbs st =
        ⟨.done s, { st with check_idx := st.check_idx + 1 }, none,
          cbs.progress_callback.isSome, true, false⟩ := by
      simp [pollStep, hok, hpr, hc]
    rw [hstep]
  · intro cfg cbs st s hok hpr hc
    simp [pollStep, hok, hpr, hc]
  · intro cfg cbs fuel hbudget
    have hg : should_continue_polling cfg (resetState cfg) = false := by
      simp only [should_continue_polling, resetState]
      simp only [decide_eq_false_iff_not, not_lt]
      linarith
    rw [poll_until_complete, pollLoopAux, if_neg (by simp [hg])]
    rfl

/-- Witness for the amended C6: with the exhausted-budget configuration and
a raising checker, four units of fuel, the run times out at entry. -/
theorem polling_iteration_order_witness :
    poll_until_complete cfgExhausted cbsCheckerRaises (3 + 1) =
      ⟨.timeout 0 0, resetState cfgExhausted, []⟩ :=
  (polling_iteration_order ℕ).2.2.2.2 cfgExhausted cbsCheckerRaises 3
    (by norm_num [cfgExhausted])

/-! ## Deduplication lemmas -/

theorem dedupByClean_sublist : ∀ (l seen : List (List Char)),
    List.Sublist (dedupByClean l seen) l
  | [], _ => List.Sublist.refl []
  | d :: ds, seen => by
    rw [dedupByClean]
    by_cases h : cleanDigits d ∈ seen
    · rw [if_pos h]
      exact (dedupByClean_sublist ds seen).trans (List.sublist_cons_self d ds)
    · rw [if_neg h]
      exact (dedupByClean_sublist ds (cleanDigits d :: seen)).cons₂ d

theorem dedupByClean_key_notin_seen : ∀ (l seen : List (List Char)) (x : List Char),
    x ∈ dedupByClean l seen → cleanDigits x ∉ seen
  | [], _, x => by simp [dedupByClean]
  | d :: ds, seen, x => by
    rw [dedupByClean]
    by_cases h : cleanDigits d ∈ seen
    · rw [if_pos h]
      exact dedupByClean_key_notin_seen ds seen x
    · rw [if_neg h]
      intro hx
      rcases List.mem_cons.mp hx with rfl | hx2
      · exact h
      · intro hseen
        exact dedupByClean_key_notin_seen ds (cleanDigits d :: seen) x hx2
          (List.mem_cons_of_mem _ hseen)

theorem dedupByClean_keys_nodup : ∀ (l seen : List (List Char)),
    ((dedupByClean l seen).map cleanDigits).Nodup
  | [], _ => by simp [dedupByClean]
  | d :: ds, seen => by
    rw [dedupByClean]
    by_cases h : cleanDigits d ∈ seen
    · rw [if_pos h]
      exact dedupByClean_keys_nodup ds seen
    · rw [if_neg h]
      refine List.nodup_cons.mpr ⟨?_, dedupByClean_keys_nodup ds (cleanDigits d :: seen)⟩
      intro hmem
      obtain ⟨x, hx, hkey⟩ := List.mem_map.mp hmem
      exact dedupByClean_key_notin_seen ds (cleanDigits d :: seen) x hx
        (by rw [hkey]; exact List.mem_cons_self _ _)

theorem dedupByClean_keeps_first : ∀ (l seen : List (List Char)) (x : List Char),
    x ∈ dedupByClean l seen →
    l.find? (fun z => cleanDigits z == cleanDigits x) = some x
  | [], _, x => by simp [dedupByClean]
  | d :: ds, seen, x => by
    rw [dedupByClean]
    by_cases h : cleanDigits d ∈ seen
    · rw [if_pos h]
      intro hx
      have hne : cleanDigits d ≠ cleanDigits x := by
        intro he
        exact dedupByClean_key_notin_seen ds seen x hx (he ▸ h)
      rw [List.find?_cons_of_neg _ (by simpa using hne)]
      exact dedupByClean_keeps_first ds seen x hx
    · rw [if_neg h]
      intro hx
      rcases List.mem_cons.mp hx with rfl | hx2
      · rw [List.find?_cons_of_pos _ (by simp)]
      · have hne : cleanDigits d ≠ cleanDigits x := by
          intro he
          exact dedupByClean_key_notin_seen ds (cleanDigits d :: seen) x hx2
            (he ▸ List.mem_cons_self _ _)
        rw [List.find?_cons_of_neg _ (by simpa using hne)]
        exact dedupByClean_keeps_first ds (cleanDigits d :: seen) x hx2

/-! ## Extraction claims -/

/-- **C8 counterexample.** `extract_documents` does not list identifiers in
order of occurrence when the text mixes kinds: on a text that is literally a
CNPJ followed by a CPF, the result lists the CPF first, because all
CPF-pattern matches are collected before any CNPJ-pattern match. -/
theorem extract_documents_not_occurrence_ordered :
    extract_documents mixedDocText =
      ["529.982.247-25".data, "11.222.333/0001-81".data] ∧
    mixedDocText = "11.222.333/0001-81".data ++ " e ".data ++ "529.982.247-25".data ∧
    ["529.982.247-25".data, "11.222.333/0001-81".data] ≠
      ["11.222.333/0001-81".data, "529.982.247-25".data] := by
  refine ⟨by decide, by decide, by decide⟩

/-- **C8 (amended).** `extract_documents` returns, in order: the valid CPFs
matched by the punctuated CPF pattern (in occurrence order), then the valid
CNPJs matched by the punctuated CNPJ pattern (in occurrence order), then the
valid bare 11–14-digit numbers (in occurrence order) — not global occurrence
order when kinds mix — with duplicates by digits-only value suppressed,
keeping the first occurrence of that concatenated sequence: the output is a
subsequence of the staged list, its digits-only values are pairwise
distinct, and every retained document is the first element of the staged
list carrying its digits-only value. -/
theorem extract_documents_staged_order_dedup :
    (∀ text : List Char,
      extract_documents text =
        dedupByClean
          (numsStage (pyStrip text) (cpfStage (pyStrip text) ++ cnpjStage (pyStrip text))) []) ∧
    (∀ text : List Char,
      List.Sublist (extract_documents text)
        (numsStage (pyStrip text) (cpfStage (pyStrip text) ++ cnpjStage (pyStrip text)))) ∧
    (∀ text : List Char, ((extract_documents text).map cleanDigits).Nodup) ∧
    (∀ (text : List Char) (x : List Char), x ∈ extract_documents text →
      (numsStage (pyStrip text) (cpfStage (pyStrip text) ++ cnpjStage (pyStrip text))).find?
        (fun z => cleanDigits z == cleanDigits x) = some x) ∧
    extract_documents mixedDocText =
      ["529.982.247-25".data, "11.222.333/0001-81".data] := by
  refine ⟨fun text => rfl, fun text => dedupByClean_sublist _ [],
    fun text => dedupByClean_keys_nodup _ [],
    fun text x hx => dedupByClean_keeps_first _ [] x hx, by decide⟩

/-- Witness for the amended C8: on the mixed text, the retained CPF is the
first staged document with its digits-only value. -/
theorem extract_documents_staged_order_dedup_witness :
    (numsStage (pyStrip mixedDocText)
        (cpfStage (pyStrip mixedDocText) ++ cnpjStage (pyStrip mixedDocText))).find?
      (fun z => cleanDigits z == cleanDigits "529.982.247-25".data) =
      some "529.982.247-25".data :=
  extract_documents_staged_order_dedup.2.2.2.1 mixedDocText "529.982.247-25".data
    (by decide)

/-- **C7.** CNJ extraction tries the strict tier, then the loose tier, then
the 20-consecutive-digit tier, the first tier with a non-empty validated
result winning and never combining across tiers; an invalid candidate (year
or segment out of range) is skipped without aborting the scan.  Concretely,
`"processo 1234567-89.2023.1.01.0001"` yields exactly
`["1234567-89.2023.1.01.0001"]`, the same 20 digits without punctuation
yield the identical formatted string, and a text with an invalid-year
candidate followed by a valid one yields just the valid one. -/
theorem extract_process_numbers_tiered :
    extract_process_numbers "processo 1234567-89.2023.1.01.0001".data =
      ["1234567-89.2023.1.01.0001".data] ∧
    extract_process_numbers "12345678920231010001".data =
      ["1234567-89.2023.1.01.0001".data] ∧
    (∀ text : List Char,
      (cnjTierStrict (pyStrip text) ≠ [] →
        extract_process_numbers text = dedupStr (cnjTierStrict (pyStrip text)) []) ∧
      (cnjTierStrict (pyStrip text) = [] → cnjTierLoose (pyStrip text) ≠ [] →
        extract_process_numbers text = dedupStr (cnjTierLoose (pyStrip text)) []) ∧
      (cnjTierStrict (pyStrip text) = [] → cnjTierLoose (pyStrip text) = [] →
        extract_process_numbers text = dedupStr (cnjTierTwenty (pyStrip text)) [])) ∧
    extract_process_numbers "1234567-89.1990.1.01.0001 e 7654321-10.2024.8.26.0100".data =
      ["7654321-10.2024.8.26.0100".data] := by
  refine ⟨by decide, by decide, fun text => ⟨?_, ?_, ?_⟩, by decide⟩
  · intro hA
    simp only [extract_process_numbers]
    rw [if_pos hA]
  · intro hA hB
    simp only [extract_process_numbers]
    rw [if_neg (by simp [hA]), if_pos hB]
  · intro hA hB
    simp only [extract_process_numbers]
    rw [if_neg (by simp [hA]), if_neg (by simp [hB])]

/-- Witness for C7: the strict tier is non-empty on the first concrete text,
and extraction equals its deduplication. -/
theorem extract_process_numbers_tiered_witness :
    extract_process_numbers "processo 1234567-89.2023.1.01.0001".data =
      dedupStr (cnjTierStrict (pyStrip "processo 1234567-89.2023.1.01.0001".data)) [] :=
  ((extract_process_numbers_tiered.2.2.1
    "processo 1234567-89.2023.1.01.0001".data).1 (by decide))

/-- **C10.** `validate_process_number` is true exactly when extraction
yields one candidate; a string containing two distinct valid CNJ numbers
(here literally two valid numbers joined by `" e "`, both matched by the
strict tier) validates as false even though each number alone validates as
true, and malformed input yields false (the function is total). -/
theorem validate_process_number_iff_unique :
    (∀ s : List Char,
      validate_process_number s = true ↔ (extract_process_numbers s).length = 1) ∧
    (∀ s : List Char,
      2 ≤ (extract_process_numbers s).length → validate_process_number s = false) ∧
    validate_process_number
      ("1234567-89.2023.1.01.0001".data ++ " e ".data ++ "7654321-10.2024.8.26.0100".data)
      = false ∧
    validate_process_number "1234567-89.2023.1.01.0001".data = true ∧
    validate_process_number "7654321-10.2024.8.26.0100".data = true ∧
    validate_process_number "abc".data = false ∧
    validate_process_number [] = false := by
  have hiff : ∀ s : List Char,
      validate_process_number s = true ↔ (extract_process_numbers s).length = 1 := by
    intro s
    simp only [validate_process_number]
    by_cases he : extract_process_numbers s = []
    · rw [if_pos he, he]
      simp
    · rw [if_neg he]
      simp
  refine ⟨hiff, ?_, by decide, by decide, by decide, by decide, by decide⟩
  intro s hlen
  cases hv : validate_process_number s
  · rfl
  · exact absurd ((hiff s).mp hv) (by omega)

/-! ## Orchestration claims -/

/-- **C9.** If the collaborator's initiation response carries no `job_id`,
the orchestrators return the `SEARCH_INITIATION_FAILED` error after exactly
one collaborator call (never invoking polling or the results fetch); if
extraction finds nothing — extraction being a total function that returns a
(possibly empty) sequence on every input, including the empty string and
digit-bearing noise — the `NO_PROCESS_FOUND` / `NO_DOCUMENT_FOUND` error is
returned with no collaborator call at all. -/
theorem consult_initiation_failure_and_no_identifier :
    (∀ (client : WJClient) (input p : List Char) (resp : SearchResponse),
      extract_first_process input = some p → p ≠ [] → client.auth_ok = true →
      client.initiate_search p = .ok resp → pyTruthy resp.job_id = false →
      consult_process client input =
        (.failure "process_consultation".data "SEARCH_INITIATION_FAILED".data
          "Failed to initiate search - no job ID returned".data, [.initiate p])) ∧
    (∀ (client : WJClient) (input d : List Char) (resp : SearchResponse),
      extract_first_document input = some d → d ≠ [] → client.auth_ok = true →
      client.initiate_search (get_clean_document d) = .ok resp →
      pyTruthy resp.job_id = false →
      consult_document client input =
        (.failure "document_consultation".data "SEARCH_INITIATION_FAILED".data
          "Failed to initiate search - no job ID returned".data,
          [.initiate (get_clean_document d)])) ∧
    (∀ (client : WJClient) (input : List Char),
      extract_first_process input = none →
      consult_process client input =
        (.failure "process_consultation".data "NO_PROCESS_FOUND".data
          "No valid process number found in your message".data, [])) ∧
    (∀ (client : WJClient) (input : List Char),
      extract_first_document input = none →
      consult_document client input =
        (.failure "document_consultation".data "NO_DOCUMENT_FOUND".data
          "No valid CPF or CNPJ found in your message".data, [])) ∧
    extract_documents [] = [] ∧ extract_process_numbers [] = [] ∧
    extract_documents "abc 123".data = [] ∧
    extract_process_numbers "no process here 123".data = [] := by
  refine ⟨?_, ?_, ?_, ?_, by decide, by decide, by decide, by decide⟩
  · intro client input p resp hex hp hauth hinit hjob
    cases p with
    | nil => exact absurd rfl hp
    | cons c t =>
      have h1 : pyTruthy (some (c :: t)) = true := rfl
      simp only [consult_process, hex, h1, hinit, hauth, hjob]
      simp
  · intro client input d resp hex hd hauth hinit hjob
    cases d with
    | nil => exact absurd rfl hd
    | cons c t =>
      have h1 : pyTruthy (some (c :: t)) = true := rfl
      simp only [consult_document, hex, h1, hinit, hauth, hjob]
      simp
  · intro client input hex
    simp only [consult_process, hex]
  · intro client input hex
    simp only [consult_document, hex]

/-- Witness for C9: with a collaborator returning `job_id = None` and a
valid CNJ number in the input, `consult_process` returns the
`SEARCH_INITIATION_FAILED` error after the single initiation call. -/
theorem consult_initiation_failure_and_no_identifier_witness :
    consult_process clientNoJobId "processo 1234567-89.2023.1.01.0001".data =
      (.failure "process_consultation".data "SEARCH_INITIATION_FAILED".data
        "Failed to initiate search - no job ID returned".data,
        [.initiate "1234567-89.2023.1.01.0001".data]) :=
  consult_initiation_failure_and_no_identifier.1 clientNoJobId
    "processo 1234567-89.2023.1.01.0001".data
    "1234567-89.2023.1.01.0001".data ⟨none, none, none⟩
    (by decide) (by decide) rfl rfl rfl

/-- Witness for C1: the code accepts a concrete CPF, hence the spec-side
condition holds of it. -/
theorem validate_cpf_iff_spec_witness : cpfSpecValid "529.982.247-25".data :=
  (validate_cpf_iff_spec "529.982.247-25".data).mp (by decide)

/-- Witness for C2: the code accepts a concrete CNPJ, hence the spec-side
condition holds of it. -/
theorem validate_cnpj_iff_spec_witness : cnpjSpecValid "11.222.333/0001-81".data :=
  (validate_cnpj_iff_spec "11.222.333/0001-81".data).mp (by decide)

/-- Witness for C10: a validated concrete input has extraction count one. -/
theorem validate_process_number_iff_unique_witness :
    (extract_process_numbers "1234567-89.2023.1.01.0001".data).length = 1 :=
  (validate_process_number_iff_unique.1 "1234567-89.2023.1.01.0001".data).mp (by decide)

end JusticeAgent
